import Mathlib

/-!
Shallow embedding of the MoviWebApp repository (Flask + SQLAlchemy):
`models.py` (User / Movie tables), `data_manager.py` (DataManager CRUD
wrappers) and `app.py` (route handlers and the OMDb enrichment call).

The database is modelled as explicit state (`DB`): lists of rows plus
auto-increment counters.  The OMDb provider and the process environment
are modelled by an oracle (`Env`): the configured `OMDB_API_KEY` value and
the JSON document the provider returns for a title query.  Route handlers
are state transformers returning the new state and the HTTP response
(always a redirect on the POST routes modelled here).
-/

namespace MoviWeb

/-- `models.py` `User`: integer primary key, non-null name. -/
structure User where
  id : Nat
  name : String
deriving Repr, DecidableEq

/-- `models.py` `Movie`: integer primary key, non-null name, nullable
director / year / poster_url, non-null owning `user_id`. -/
structure Movie where
  id : Nat
  name : String
  director : Option String
  year : Option Int
  poster_url : Option String
  user_id : Nat
deriving Repr, DecidableEq

/-- The fields of the OMDb JSON document that `app.py` reads
(`Response`, `Title`, `Director`, `Year`, `Poster`); `none` models an
absent key (`dict.get` returning `None`). -/
structure OmdbData where
  response : Option String
  title : Option String
  director : Option String
  year : Option String
  poster : Option String
deriving Repr, DecidableEq

/-- The external world `app.py` consults: the `OMDB_API_KEY` environment
variable (`""` when unset, as `os.environ.get("OMDB_API_KEY", "")`) and
the provider's JSON response for each title query. -/
structure Env where
  omdb_api_key : String
  provider : String → OmdbData

/-- Python `str.strip()` with no argument: remove leading and trailing
whitespace. -/
def pyStrip (s : String) : String :=
  ⟨((s.toList.dropWhile Char.isWhitespace).reverse.dropWhile
      Char.isWhitespace).reverse⟩

/-- Python slice `s[:n]`: the first `n` characters of the string (the
whole string when it is shorter than `n`). -/
def pySlice (s : String) (n : Nat) : String :=
  ⟨s.toList.take n⟩

/-- Python `str.isdigit`: true iff the string is non-empty and every
character is a digit. -/
def pyIsdigit (s : String) : Bool :=
  !s.toList.isEmpty && s.toList.all Char.isDigit

/-- Python `int(s)` on a string of decimal digits. -/
def pyInt (s : String) : Int :=
  (s.toList.foldl (fun n c => n * 10 + (c.toNat - 48)) 0 : Nat)

/-- `app.py` `fetch_movie_from_omdb`: returns `none` when no API key is
configured (after stripping) or when the response's `Response` field is
not `"True"`; otherwise returns the provider's data. -/
def fetch_movie_from_omdb (env : Env) (title : String) : Option OmdbData :=
  let api_key := pyStrip env.omdb_api_key
  if api_key = "" then none
  else
    let data := env.provider title
    if data.response ≠ some "True" then none
    else some data

/-- The year expression shared by `add_movie` and `update_movie` in
`app.py`: `int(data["Year"][:4]) if data.get("Year") and
data["Year"][:4].isdigit() else None`, applied to the `Year` field. -/
def parse_year (y : Option String) : Option Int :=
  match y with
  | none => none
  | some s =>
    if s = "" then none
    else if pyIsdigit (pySlice s 4) then some (pyInt (pySlice s 4)) else none

/-- The `Movie(...)` constructor call in `app.py` `add_movie`
(lines 98-108), given the trimmed form title, the route's `user_id` and
the auto-assigned primary key. -/
def movieFromOmdb (env : Env) (title : String) (user_id mid : Nat) : Movie :=
  match fetch_movie_from_omdb env title with
  | none =>
    { id := mid, name := title, director := none, year := none,
      poster_url := none, user_id := user_id }
  | some data =>
    { id := mid, name := data.title.getD title, director := data.director,
      year := parse_year data.year, poster_url := data.poster,
      user_id := user_id }

/-- The persisted state: the two tables plus the auto-increment counters
SQLite assigns primary keys from. -/
structure DB where
  users : List User
  movies : List Movie
  next_user_id : Nat
  next_movie_id : Nat
deriving Repr, DecidableEq

/-- A fresh database, as created by `db.create_all()`. -/
def emptyDB : DB :=
  { users := [], movies := [], next_user_id := 1, next_movie_id := 1 }

/-- The ordering used by `User.name.asc()`. -/
abbrev userNameLe (a b : User) : Prop := a.name ≤ b.name

/-- The ordering used by `Movie.name.asc()`. -/
abbrev movieNameLe (a b : Movie) : Prop := a.name ≤ b.name

instance : DecidableRel userNameLe :=
  fun a b => inferInstanceAs (Decidable (a.name ≤ b.name))

instance : DecidableRel movieNameLe :=
  fun a b => inferInstanceAs (Decidable (a.name ≤ b.name))

instance : IsTotal User userNameLe :=
  ⟨fun a b => le_total a.name b.name⟩

instance : IsTrans User userNameLe :=
  ⟨fun _ _ _ h h2 => le_trans h h2⟩

instance : IsTotal Movie movieNameLe :=
  ⟨fun a b => le_total a.name b.name⟩

instance : IsTrans Movie movieNameLe :=
  ⟨fun _ _ _ h h2 => le_trans h h2⟩

/-- The `updated_fields` dict passed to `DataManager.update_movie`; for
each column, `some v` models the key being present with value `v` (`v`
itself may be `none`, modelling Python `None`), and `none` models an
absent key. -/
structure UpdatedFields where
  name : Option String := none
  director : Option (Option String) := none
  year : Option (Option Int) := none
  poster_url : Option (Option String) := none
deriving Repr, DecidableEq

namespace DataManager

/-- `data_manager.py` `create_user`: insert a new user row; the primary
key is auto-assigned on commit. -/
def create_user (db : DB) (name : String) : DB × User :=
  let new_user : User := { id := db.next_user_id, name := name }
  ({ db with users := db.users ++ [new_user],
             next_user_id := db.next_user_id + 1 },
   new_user)

/-- `data_manager.py` `get_users`: all users ordered by name ascending. -/
def get_users (db : DB) : List User :=
  List.insertionSort userNameLe db.users

/-- `data_manager.py` `get_movies`: a user's movies ordered by name
ascending. -/
def get_movies (db : DB) (user_id : Nat) : List Movie :=
  List.insertionSort movieNameLe
    (db.movies.filter (fun m => m.user_id == user_id))

/-- `data_manager.py` `add_movie`: persist a Movie row (the caller built
it with the next auto-assigned primary key, which commit consumes). -/
def add_movie (db : DB) (movie : Movie) : DB :=
  { db with movies := db.movies ++ [movie],
            next_movie_id := db.next_movie_id + 1 }

/-- The four `if "key" in updated_fields` assignments inside
`DataManager.update_movie`, applied in source order. -/
def apply_fields (f : UpdatedFields) (m : Movie) : Movie :=
  let m1 := match f.name with
    | some v => { m with name := v }
    | none => m
  let m2 := match f.director with
    | some v => { m1 with director := v }
    | none => m1
  let m3 := match f.year with
    | some v => { m2 with year := v }
    | none => m2
  match f.poster_url with
  | some v => { m3 with poster_url := v }
  | none => m3

/-- `data_manager.py` `update_movie`: look the movie up by primary key;
if absent return `None`, else assign the fields whose keys are present
and commit, returning the updated movie. -/
def update_movie (db : DB) (movie_id : Nat) (updated_fields : UpdatedFields) :
    DB × Option Movie :=
  match db.movies.find? (fun m => m.id == movie_id) with
  | none => (db, none)
  | some movie =>
    ({ db with movies := db.movies.map fun x =>
                 if x.id == movie_id then apply_fields updated_fields x else x },
     some (apply_fields updated_fields movie))

/-- `data_manager.py` `delete_movie`: look the movie up by primary key;
if absent return `False` without touching the store, else delete the row
and return `True`. -/
def delete_movie (db : DB) (movie_id : Nat) : DB × Bool :=
  match db.movies.find? (fun m => m.id == movie_id) with
  | none => (db, false)
  | some _ =>
    ({ db with movies := db.movies.filter (fun m => !(m.id == movie_id)) },
     true)

end DataManager

/-- The response of the POST handlers modelled here: a redirect either to
the user's movies page (`url_for("user_movies", user_id=...)`) or to the
homepage (`url_for("index")`). -/
inductive HResp where
  | redirectUserMovies (user_id : Option Nat)
  | redirectIndex
deriving Repr, DecidableEq

/-- `app.py` `add_movie` route (POST /users/user_id/movies): trim the
submitted title; if empty, redirect without effect; otherwise consult
OMDb, build the Movie record and persist it. -/
def add_movie_route (env : Env) (db : DB) (user_id : Nat)
    (form_title : Option String) : DB × HResp :=
  let title := pyStrip (form_title.getD "")
  if title = "" then (db, HResp.redirectUserMovies (some user_id))
  else
    (DataManager.add_movie db (movieFromOmdb env title user_id db.next_movie_id),
     HResp.redirectUserMovies (some user_id))

/-- `app.py` `create_user` route (POST /users): trim the submitted name;
create the user only when it is non-empty; redirect to the homepage
either way. -/
def create_user_route (db : DB) (form_name : Option String) : DB × HResp :=
  let name := pyStrip (form_name.getD "")
  if name = "" then (db, HResp.redirectIndex)
  else ((DataManager.create_user db name).1, HResp.redirectIndex)

/-- `app.py` `delete_movie` route (POST /movies/movie_id/delete): delete
through the data manager (ignoring its result) and redirect to the page
of the `user_id` taken from the form. -/
def delete_movie_route (db : DB) (movie_id : Nat)
    (form_user_id : Option Nat) : DB × HResp :=
  ((DataManager.delete_movie db movie_id).1,
   HResp.redirectUserMovies form_user_id)

/-- The `payload` dict built by `app.py` `update_movie` (lines 245-256):
on an OMDb miss only the `name` key, on a match all four keys (possibly
holding `None` values). -/
def update_payload (env : Env) (new_title : String) : UpdatedFields :=
  match fetch_movie_from_omdb env new_title with
  | none => { name := some new_title }
  | some data =>
    { name := some (data.title.getD new_title),
      director := some data.director,
      year := some (parse_year data.year),
      poster_url := some data.poster }

/-- `app.py` `update_movie` route (POST /movies/movie_id/update): look
the movie up; redirect to the homepage if absent; trim the submitted
title and redirect without effect if empty; otherwise consult OMDb,
build the payload and apply it through the data manager. -/
def update_movie_route (env : Env) (db : DB) (movie_id : Nat)
    (form_title : Option String) : DB × HResp :=
  match db.movies.find? (fun m => m.id == movie_id) with
  | none => (db, HResp.redirectIndex)
  | some movie =>
    let new_title := pyStrip (form_title.getD "")
    if new_title = "" then (db, HResp.redirectUserMovies (some movie.user_id))
    else
      ((DataManager.update_movie db movie_id (update_payload env new_title)).1,
       HResp.redirectUserMovies (some movie.user_id))

/-- Modelled from the spec: user deletion. The repository has no
delete-user route or DataManager method; `models.py` declares
`cascade="all, delete-orphan"` on `User.movies`, so deleting a user
through the ORM session removes the user row and every Movie row whose
`user_id` references it ("Deleting a User deletes all of its Movies
(cascade)"). -/
def delete_user (db : DB) (user_id : Nat) : DB :=
  match db.users.find? (fun u => u.id == user_id) with
  | none => db
  | some _ =>
    { db with users := db.users.filter (fun u => !(u.id == user_id)),
              movies := db.movies.filter (fun m => !(m.user_id == user_id)) }

/-- One HTTP request of the application mutating the store: the four POST
routes of `app.py`. -/
inductive Step (env : Env) : DB → DB → Prop
  | create_user (db : DB) (form_name : Option String) :
      Step env db (create_user_route db form_name).1
  | add_movie (db : DB) (user_id : Nat) (form_title : Option String) :
      Step env db (add_movie_route env db user_id form_title).1
  | update_movie (db : DB) (movie_id : Nat) (form_title : Option String) :
      Step env db (update_movie_route env db movie_id form_title).1
  | delete_movie (db : DB) (movie_id : Nat) (form_user_id : Option Nat) :
      Step env db (delete_movie_route db movie_id form_user_id).1

/-- States reachable from a fresh database through the application's
operations. -/
inductive Reachable (env : Env) : DB → Prop
  | init : Reachable env emptyDB
  | step {db db2 : DB} : Reachable env db → Step env db db2 → Reachable env db2

/-- An environment with no `OMDB_API_KEY` configured. -/
def envNone : Env :=
  { omdb_api_key := "",
    provider := fun _ =>
      { response := none, title := none, director := none, year := none,
        poster := none } }

/-- An environment whose provider reports a match with a two-character
`Year` string. -/
def envYear99 : Env :=
  { omdb_api_key := "k",
    provider := fun _ =>
      { response := some "True", title := some "Example", director := none,
        year := some "99", poster := none } }

/-- The provider document of a full match. -/
def richData : OmdbData :=
  { response := some "True", title := some "Inception",
    director := some "Christopher Nolan", year := some "1999-2003",
    poster := some "http://img.example/p.jpg" }

/-- An environment with a key configured whose provider always reports
the full match `richData`. -/
def envRich : Env :=
  { omdb_api_key := "k", provider := fun _ => richData }

/-- A pre-existing movie row with every optional column populated. -/
def movieOld : Movie :=
  { id := 1, name := "Old", director := some "Keeper", year := some 1980,
    poster_url := some "http://img.example/old.jpg", user_id := 1 }

/-- A store holding one user and one fully-populated movie. -/
def dbOne : DB :=
  { users := [{ id := 1, name := "alice" }], movies := [movieOld],
    next_user_id := 2, next_movie_id := 2 }

/-- An update payload carrying only the `name` key. -/
def onlyNameField : UpdatedFields := { name := some "Renamed" }

end MoviWeb

namespace MoviWeb

theorem fetch_eq_none_of_miss (env : Env) (t : String)
    (h : pyStrip env.omdb_api_key = "" ∨
      (env.provider t).response ≠ some "True") :
    fetch_movie_from_omdb env t = none := by
  unfold fetch_movie_from_omdb
  rcases h with h | h
  · simp [h]
  · by_cases hk : pyStrip env.omdb_api_key = "" <;> simp [hk, h]

theorem apply_fields_fields (f : UpdatedFields) (m : Movie) :
    (DataManager.apply_fields f m).id = m.id ∧
    (DataManager.apply_fields f m).user_id = m.user_id ∧
    (DataManager.apply_fields f m).name = f.name.getD m.name ∧
    (DataManager.apply_fields f m).director = f.director.getD m.director ∧
    (DataManager.apply_fields f m).year = f.year.getD m.year ∧
    (DataManager.apply_fields f m).poster_url = f.poster_url.getD m.poster_url := by
  obtain ⟨n, d, y, p⟩ := f
  cases n <;> cases d <;> cases y <;> cases p <;>
    simp [DataManager.apply_fields]

/-- Claim C1: for every add-movie request whose title is non-empty after
trimming, if no access credential is configured or the provider's
response lacks the positive match indicator, the persisted Movie has the
user-supplied title as name and director, year and poster_url all
unset. -/
theorem C1_add_movie_without_enrichment (env : Env) (db : DB) (user_id : Nat)
    (form_title : Option String) (t : String)
    (ht : pyStrip (form_title.getD "") = t) (hne : t ≠ "")
    (hmiss : pyStrip env.omdb_api_key = "" ∨
      (env.provider t).response ≠ some "True") :
    (add_movie_route env db user_id form_title).1.movies =
      db.movies ++
        [{ id := db.next_movie_id, name := t, director := none, year := none,
           poster_url := none, user_id := user_id }] := by
  have hf := fetch_eq_none_of_miss env t hmiss
  simp only [add_movie_route, ht, if_neg hne, movieFromOmdb, hf,
    DataManager.add_movie]

/-- Witness for C1: no key configured, title "  Inception  ". -/
theorem C1_witness :
    (add_movie_route envNone emptyDB 1 (some "  Inception  ")).1.movies =
      emptyDB.movies ++
        [{ id := emptyDB.next_movie_id, name := "Inception", director := none,
           year := none, poster_url := none, user_id := 1 }] :=
  C1_add_movie_without_enrichment envNone emptyDB 1 (some "  Inception  ")
    "Inception" (by decide) (by decide) (Or.inl (by decide))

/-- Claim C2 counterexample: with a provider Year string "99" (shorter
than four characters), the add-movie request stores year 99, which is
not a four-digit year; this refutes "the stored year is a 4-digit
year". -/
theorem C2_counterexample :
    ((add_movie_route envYear99 emptyDB 1 (some "t")).1.movies.map
        Movie.year) = [some 99] ∧
    ¬((1000 : Int) ≤ 99 ∧ (99 : Int) ≤ 9999) :=
  ⟨by decide, by decide⟩

/-- Claim C2 (amended): on an enrichment match during movie creation the
stored year is the integer value of the first at-most-four characters of
the provider's Year string, present exactly when that prefix is
non-empty and all digits; a Year string of one to three digits therefore
also yields a stored year, one with fewer than four digits. -/
theorem C2_year_from_prefix (env : Env) (db : DB) (user_id : Nat)
    (form_title : Option String) (t : String) (data : OmdbData) (s : String)
    (ht : pyStrip (form_title.getD "") = t) (hne : t ≠ "")
    (hmatch : fetch_movie_from_omdb env t = some data)
    (hy : data.year = some s) :
    (add_movie_route env db user_id form_title).1.movies =
      db.movies ++ [movieFromOmdb env t user_id db.next_movie_id] ∧
    ∀ n : Int,
      (movieFromOmdb env t user_id db.next_movie_id).year = some n ↔
        (s.toList.take 4 ≠ [] ∧ (s.toList.take 4).all Char.isDigit = true ∧
         n = pyInt (pySlice s 4)) := by
  constructor
  · simp only [add_movie_route, ht, if_neg hne, DataManager.add_movie]
  · intro n
    simp only [movieFromOmdb, hmatch]
    rw [hy]
    by_cases hs : s = ""
    · subst hs
      simp [parse_year]
    · have hl : s.toList ≠ [] :=
        fun hh => hs (String.toList_inj.mp (hh.trans String.toList_empty.symm))
      have hl2 : s.data ≠ [] := hl
      have htk : s.toList.take 4 ≠ [] := by
        simp [List.take_eq_nil_iff, hl, hl2]
      have htk2 : s.data.take 4 ≠ [] := htk
      simp [parse_year, hs, pyIsdigit, pySlice, String.toList, htk, htk2,
        List.isEmpty_iff]
      intro _
      exact eq_comm

/-- Witness for C2 (amended) at Year "1999-2003": stored year 1999. -/
theorem C2_witness :
    (movieFromOmdb envRich "Inception" 1 1).year = some 1999 := by
  have h := C2_year_from_prefix envRich emptyDB 1 (some "Inception")
    "Inception" richData "1999-2003" (by decide) (by decide) (by decide)
    (by decide)
  exact ((h.2 1999).mpr (by refine ⟨by decide, by decide, by decide⟩))

theorem update_movie_result (db : DB) (movie_id : Nat) (f : UpdatedFields)
    (m : Movie)
    (h : (DataManager.update_movie db movie_id f).2 = some m) :
    ∃ movie, db.movies.find? (fun x => x.id == movie_id) = some movie ∧
      m = DataManager.apply_fields f movie := by
  unfold DataManager.update_movie at h
  cases hfind : db.movies.find? (fun x => x.id == movie_id) with
  | none => rw [hfind] at h; simp at h
  | some movie =>
    rw [hfind] at h
    simp at h
    exact ⟨movie, rfl, h.symm⟩

theorem update_payload_of_match (env : Env) (t : String) (data : OmdbData)
    (hmatch : fetch_movie_from_omdb env t = some data) :
    update_payload env t =
      { name := some (data.title.getD t), director := some data.director,
        year := some (parse_year data.year),
        poster_url := some data.poster } := by
  simp [update_payload, hmatch]

/-- Claim C3: on an enrichment match, during creation and during title
update alike, each of the fields director, year, poster_url that the
provider omits ends up unset (None) in the persisted Movie; in
particular a title update whose match omits a field sets it to None
rather than leaving a previous non-null value. -/
theorem C3_omitted_fields_unset (env : Env) (t : String) (data : OmdbData)
    (hmatch : fetch_movie_from_omdb env t = some data) :
    (data.director = none →
      (∀ uid mid, (movieFromOmdb env t uid mid).director = none) ∧
      (∀ (db : DB) (movie_id : Nat) (m : Movie),
        (DataManager.update_movie db movie_id (update_payload env t)).2 =
          some m → m.director = none)) ∧
    (data.year = none →
      (∀ uid mid, (movieFromOmdb env t uid mid).year = none) ∧
      (∀ (db : DB) (movie_id : Nat) (m : Movie),
        (DataManager.update_movie db movie_id (update_payload env t)).2 =
          some m → m.year = none)) ∧
    (data.poster = none →
      (∀ uid mid, (movieFromOmdb env t uid mid).poster_url = none) ∧
      (∀ (db : DB) (movie_id : Nat) (m : Movie),
        (DataManager.update_movie db movie_id (update_payload env t)).2 =
          some m → m.poster_url = none)) := by
  have hp := update_payload_of_match env t data hmatch
  refine ⟨fun hd => ⟨fun uid mid => ?_, fun db movie_id m hm => ?_⟩,
    fun hd => ⟨fun uid mid => ?_, fun db movie_id m hm => ?_⟩,
    fun hd => ⟨fun uid mid => ?_, fun db movie_id m hm => ?_⟩⟩
  · simp [movieFromOmdb, hmatch, hd]
  · obtain ⟨movie, _, rfl⟩ := update_movie_result db movie_id _ m hm
    rw [(apply_fields_fields (update_payload env t) movie).2.2.2.1]
    simp [hp, hd]
  · simp [movieFromOmdb, hmatch, hd, parse_year]
  · obtain ⟨movie, _, rfl⟩ := update_movie_result db movie_id _ m hm
    rw [(apply_fields_fields (update_payload env t) movie).2.2.2.2.1]
    simp [hp, hd, parse_year]
  · simp [movieFromOmdb, hmatch, hd]
  · obtain ⟨movie, _, rfl⟩ := update_movie_result db movie_id _ m hm
    rw [(apply_fields_fields (update_payload env t) movie).2.2.2.2.2]
    simp [hp, hd]

/-- Witness for C3: a match whose document omits director and poster
sets both to None, overwriting the movie's previous director. -/
theorem C3_witness :
    (movieFromOmdb envYear99 "t" 1 1).director = none ∧
    (DataManager.apply_fields (update_payload envYear99 "t")
        movieOld).director = none ∧
    movieOld.director = some "Keeper" := by
  have h := C3_omitted_fields_unset envYear99 "t" (envYear99.provider "t")
    (by decide)
  exact ⟨(h.1 rfl).1 1 1, (h.1 rfl).2 dbOne 1 _ (by decide), by decide⟩

/-- Claim C9: the title-update handler runs the same enrichment decision
logic as movie creation: for the same title and provider behaviour, a
miss leaves creation and update with just the title, and a match gives
the updated movie the same name, director, year and poster_url values
that creation would store. -/
theorem C9_update_enrichment_eq_creation (env : Env) (t : String)
    (uid mid : Nat) (m : Movie) :
    (fetch_movie_from_omdb env t = none →
      movieFromOmdb env t uid mid =
        { id := mid, name := t, director := none, year := none,
          poster_url := none, user_id := uid } ∧
      update_payload env t = { name := some t }) ∧
    (∀ data, fetch_movie_from_omdb env t = some data →
      (DataManager.apply_fields (update_payload env t) m).name =
        (movieFromOmdb env t uid mid).name ∧
      (DataManager.apply_fields (update_payload env t) m).director =
        (movieFromOmdb env t uid mid).director ∧
      (DataManager.apply_fields (update_payload env t) m).year =
        (movieFromOmdb env t uid mid).year ∧
      (DataManager.apply_fields (update_payload env t) m).poster_url =
        (movieFromOmdb env t uid mid).poster_url) := by
  constructor
  · intro hf
    exact ⟨by simp [movieFromOmdb, hf], by simp [update_payload, hf]⟩
  · intro data hf
    have hp := update_payload_of_match env t data hf
    have ha := apply_fields_fields (update_payload env t) m
    refine ⟨?_, ?_, ?_, ?_⟩
    · rw [ha.2.2.1, hp]; simp [movieFromOmdb, hf]
    · rw [ha.2.2.2.1, hp]; simp [movieFromOmdb, hf]
    · rw [ha.2.2.2.2.1, hp]; simp [movieFromOmdb, hf]
    · rw [ha.2.2.2.2.2, hp]; simp [movieFromOmdb, hf]

/-- Witness for C9: on the full match `richData`, updating and creating
agree on the stored name. -/
theorem C9_witness :
    (DataManager.apply_fields (update_payload envRich "Inception")
        movieOld).name = (movieFromOmdb envRich "Inception" 1 1).name :=
  ((C9_update_enrichment_eq_creation envRich "Inception" 1 1 movieOld).2
    richData (by decide)).1

/-- Claim C10: on an enrichment match the persisted movie name is the
provider's Title when the response carries one, and the submitted title
only when the response omits Title, for creation and for title update
alike; the witness exhibits a stored name differing from the submitted
title. -/
theorem C10_provider_title_wins (env : Env) (t : String) (uid mid : Nat)
    (m : Movie) (data : OmdbData)
    (hmatch : fetch_movie_from_omdb env t = some data) :
    (movieFromOmdb env t uid mid).name =
      (match data.title with | some s => s | none => t) ∧
    (DataManager.apply_fields (update_payload env t) m).name =
      (match data.title with | some s => s | none => t) := by
  have hp := update_payload_of_match env t data hmatch
  have ha := apply_fields_fields (update_payload env t) m
  constructor
  · rcases hdt : data.title with _ | s <;> simp [movieFromOmdb, hmatch, hdt]
  · rw [ha.2.2.1, hp]
    rcases hdt : data.title with _ | s <;> simp [hdt]

/-- Witness for C10: submitting "inception" stores the provider Title
"Inception", which differs from the submitted title. -/
theorem C10_witness :
    (movieFromOmdb envRich "inception" 1 1).name = "Inception" ∧
    "Inception" ≠ "inception" := by
  have h := (C10_provider_title_wins envRich "inception" 1 1 movieOld
    richData (by decide)).1
  exact ⟨h, by decide⟩

/-- Claim C8: a create-user or add-movie request whose required form
field is missing or empty after trimming whitespace is redirected and
leaves the stored state entirely unchanged. -/
theorem C8_blank_fields_no_effect (env : Env) (db : DB) (user_id : Nat)
    (form : Option String) (hblank : pyStrip (form.getD "") = "") :
    add_movie_route env db user_id form =
      (db, HResp.redirectUserMovies (some user_id)) ∧
    create_user_route db form = (db, HResp.redirectIndex) := by
  constructor
  · simp [add_movie_route, hblank]
  · simp [create_user_route, hblank]

/-- Claim C6: list-users returns all stored users ordered by name
ascending; list-movies returns exactly the given user's movies ordered
by name ascending, and the empty collection for a user owning none. -/
theorem C6_listings (db : DB) (user_id : Nat) :
    (DataManager.get_users db).Perm db.users ∧
    List.Sorted userNameLe (DataManager.get_users db) ∧
    (DataManager.get_movies db user_id).Perm
      (db.movies.filter (fun m => m.user_id == user_id)) ∧
    List.Sorted movieNameLe (DataManager.get_movies db user_id) ∧
    (∀ m, m ∈ DataManager.get_movies db user_id ↔
      (m ∈ db.movies ∧ m.user_id = user_id)) ∧
    ((∀ m ∈ db.movies, m.user_id ≠ user_id) →
      DataManager.get_movies db user_id = []) := by
  refine ⟨List.perm_insertionSort _ _, List.sorted_insertionSort _ _,
    List.perm_insertionSort _ _, List.sorted_insertionSort _ _, ?_, ?_⟩
  · intro m
    simp [DataManager.get_movies, List.mem_insertionSort, List.mem_filter]
  · intro hnone
    have hfil : db.movies.filter (fun m => m.user_id == user_id) = [] := by
      rw [List.filter_eq_nil_iff]
      intro m hm
      simpa using hnone m hm
    simp [DataManager.get_movies, hfil]

/-- Witness for C6: the user with id 5 owns no movie in `dbOne`, so its
listing is empty. -/
theorem C6_witness : DataManager.get_movies dbOne 5 = [] :=
  (C6_listings dbOne 5).2.2.2.2.2 (by decide)

/-- Claim C4: for a movie id present in the store, the data-access update
applies exactly the keys present in the payload to that Movie and leaves
every absent-key field, the movie's id and user_id, every other Movie,
and the user table unchanged. -/
theorem C4_update_applies_present_keys (db : DB) (movie_id : Nat)
    (f : UpdatedFields)
    (hfound : (db.movies.find? (fun m => m.id == movie_id)).isSome = true) :
    (DataManager.update_movie db movie_id f).1.users = db.users ∧
    (DataManager.update_movie db movie_id f).1.movies.length =
      db.movies.length ∧
    ∀ i (h : i < db.movies.length)
      (h2 : i < (DataManager.update_movie db movie_id f).1.movies.length),
      (((DataManager.update_movie db movie_id f).1.movies.get ⟨i, h2⟩).id =
        (db.movies.get ⟨i, h⟩).id ∧
       ((DataManager.update_movie db movie_id f).1.movies.get
          ⟨i, h2⟩).user_id = (db.movies.get ⟨i, h⟩).user_id) ∧
      ((db.movies.get ⟨i, h⟩).id ≠ movie_id →
        (DataManager.update_movie db movie_id f).1.movies.get ⟨i, h2⟩ =
          db.movies.get ⟨i, h⟩) ∧
      ((db.movies.get ⟨i, h⟩).id = movie_id →
        ((DataManager.update_movie db movie_id f).1.movies.get
            ⟨i, h2⟩).name = f.name.getD (db.movies.get ⟨i, h⟩).name ∧
        ((DataManager.update_movie db movie_id f).1.movies.get
            ⟨i, h2⟩).director =
          f.director.getD (db.movies.get ⟨i, h⟩).director ∧
        ((DataManager.update_movie db movie_id f).1.movies.get
            ⟨i, h2⟩).year = f.year.getD (db.movies.get ⟨i, h⟩).year ∧
        ((DataManager.update_movie db movie_id f).1.movies.get
            ⟨i, h2⟩).poster_url =
          f.poster_url.getD (db.movies.get ⟨i, h⟩).poster_url) := by
  obtain ⟨mfound, hm⟩ := Option.isSome_iff_exists.mp hfound
  have hdb : (DataManager.update_movie db movie_id f).1 =
      { db with movies := db.movies.map fun x =>
          if x.id == movie_id then DataManager.apply_fields f x else x } := by
    unfold DataManager.update_movie
    rw [hm]
  rw [hdb]
  refine ⟨rfl, by simp, ?_⟩
  intro i h h2
  simp only [List.get_eq_getElem, List.getElem_map]
  by_cases hid : db.movies[i].id = movie_id
  · have ha := apply_fields_fields f db.movies[i]
    simp only [hid, beq_self_eq_true, if_true]
    exact ⟨⟨ha.1.trans hid, ha.2.1⟩, fun hc => absurd rfl hc,
      fun _ => ⟨ha.2.2.1, ha.2.2.2.1, ha.2.2.2.2.1, ha.2.2.2.2.2⟩⟩
  · have hbeq : (db.movies[i].id == movie_id) = false := by
      simpa using hid
    simp only [hbeq, if_false]
    exact ⟨⟨rfl, rfl⟩, fun _ => rfl, fun hc => absurd hc hid⟩

/-- Witness for C4: updating only the name in `dbOne` keeps the user
table and the movie count. -/
theorem C4_witness :
    (DataManager.update_movie dbOne 1 onlyNameField).1.users = dbOne.users ∧
    (DataManager.update_movie dbOne 1 onlyNameField).1.movies.length =
      dbOne.movies.length := by
  have h := C4_update_applies_present_keys dbOne 1 onlyNameField (by decide)
  exact ⟨h.1, h.2.1⟩

theorem filter_out_id_length (l : List Movie) (mid : Nat)
    (hnd : (l.map Movie.id).Nodup) (m : Movie) (hm : m ∈ l)
    (hid : m.id = mid) :
    (l.filter (fun x => !(x.id == mid))).length + 1 = l.length := by
  induction l with
  | nil => cases hm
  | cons a l ih =>
    rw [List.map_cons, List.nodup_cons] at hnd
    obtain ⟨ha, hnd2⟩ := hnd
    rcases List.mem_cons.mp hm with rfl | hm2
    · have hfil : l.filter (fun x => !(x.id == mid)) = l := by
        apply List.filter_eq_self.mpr
        intro x hx
        have hxm : x.id ∈ l.map Movie.id := List.mem_map_of_mem _ hx
        have hne : x.id ≠ mid := by
          intro he
          exact ha (by rw [hid, ← he]; exact hxm)
        simp [hne]
      simp [List.filter_cons, hid, hfil]
    · have hane : a.id ≠ mid := by
        intro he
        apply ha
        rw [he, ← hid]
        exact List.mem_map_of_mem _ hm2
      have hrec := ih hnd2 hm2
      simp [List.filter_cons, hane]
      omega

/-- Claim C5: deleting an absent movie id is a no-op on the store
returning False, and the enclosing delete request still completes with a
redirect; deleting a present id returns True and removes exactly that
movie (membership characterized by id, and with primary-key-unique ids
the movie count drops by exactly one), leaving users untouched. -/
theorem C5_delete_semantics (db : DB) (movie_id : Nat)
    (form_user_id : Option Nat) :
    (db.movies.find? (fun m => m.id == movie_id) = none →
      DataManager.delete_movie db movie_id = (db, false) ∧
      delete_movie_route db movie_id form_user_id =
        (db, HResp.redirectUserMovies form_user_id)) ∧
    ((db.movies.find? (fun m => m.id == movie_id)).isSome = true →
      (DataManager.delete_movie db movie_id).2 = true ∧
      (DataManager.delete_movie db movie_id).1.users = db.users ∧
      (∀ x ∈ db.movies,
        (x ∈ (DataManager.delete_movie db movie_id).1.movies ↔
          x.id ≠ movie_id)) ∧
      (DataManager.delete_movie db movie_id).1.movies.Sublist db.movies ∧
      ((db.movies.map Movie.id).Nodup →
        (DataManager.delete_movie db movie_id).1.movies.length + 1 =
          db.movies.length)) := by
  constructor
  · intro hnone
    constructor
    · unfold DataManager.delete_movie
      rw [hnone]
    · unfold delete_movie_route DataManager.delete_movie
      rw [hnone]
  · intro hsome
    obtain ⟨mf, hmf⟩ := Option.isSome_iff_exists.mp hsome
    have hdl : DataManager.delete_movie db movie_id =
        ({ db with movies := db.movies.filter fun m => !(m.id == movie_id) },
         true) := by
      unfold DataManager.delete_movie
      rw [hmf]
    rw [hdl]
    refine ⟨rfl, rfl, ?_, ?_, ?_⟩
    · intro x hx
      simp [List.mem_filter, hx]
    · exact List.filter_sublist _
    · intro hnd
      have hmem := List.mem_of_find?_eq_some hmf
      have hid : mf.id = movie_id := by
        have := List.find?_some hmf
        simpa using this
      exact filter_out_id_length db.movies movie_id hnd mf hmem hid

/-- Witness for C5: deleting the absent id 99 from `dbOne` is a no-op
returning False, and deleting the present id 1 returns True. -/
theorem C5_witness :
    DataManager.delete_movie dbOne 99 = (dbOne, false) ∧
    (DataManager.delete_movie dbOne 1).2 = true :=
  ⟨((C5_delete_semantics dbOne 99 none).1 (by decide)).1,
   ((C5_delete_semantics dbOne 1 none).2 (by decide)).1⟩

/-- Claim C7, evaluated at the failing input: from a fresh database a
single add-movie request for user id 1 (no user exists) reaches a state
containing a Movie whose owning-user reference resolves to no live User,
so the claimed invariant fails on a reachable state; the cascade half of
the claim does hold for the spec-modelled `delete_user`: after deleting
an existing user, listing that user's movies yields the empty
collection. -/
theorem C7_orphan_reachable_cascade_holds :
    (∃ db2 : DB, Reachable envNone db2 ∧
      ∃ m ∈ db2.movies, ∀ u ∈ db2.users, u.id ≠ m.user_id) ∧
    (∀ (db : DB) (uid : Nat),
      (db.users.find? (fun u => u.id == uid)).isSome = true →
      DataManager.get_movies (delete_user db uid) uid = []) := by
  constructor
  · refine ⟨(add_movie_route envNone emptyDB 1 (some "Orphan")).1,
      Reachable.step Reachable.init
        (Step.add_movie emptyDB 1 (some "Orphan")),
      { id := 1, name := "Orphan", director := none, year := none,
        poster_url := none, user_id := 1 }, by decide, by decide⟩
  · intro db uid hu
    obtain ⟨u, hufind⟩ := Option.isSome_iff_exists.mp hu
    have hdel : delete_user db uid =
        { db with
            users := db.users.filter (fun x => !(x.id == uid)),
            movies := db.movies.filter (fun m => !(m.user_id == uid)) } := by
      unfold delete_user
      rw [hufind]
    rw [hdel]
    have hfil : (db.movies.filter (fun m => !(m.user_id == uid))).filter
        (fun m => m.user_id == uid) = [] := by
      rw [List.filter_eq_nil_iff]
      intro m hm
      have hmem := (List.mem_filter.mp hm).2
      simp at hmem ⊢
      exact hmem
    simp [DataManager.get_movies, hfil]

/-- Witness for C7's cascade half: deleting user 1 from `dbOne` empties
that user's movie listing. -/
theorem C7_witness :
    DataManager.get_movies (delete_user dbOne 1) 1 = [] :=
  (C7_orphan_reachable_cascade_holds).2 dbOne 1 (by decide)

/-- Witness for C8: a missing title and a whitespace-only name both leave
the fresh store unchanged. -/
theorem C8_witness :
    add_movie_route envNone emptyDB 1 none =
      (emptyDB, HResp.redirectUserMovies (some 1)) ∧
    create_user_route emptyDB (some "   ") = (emptyDB, HResp.redirectIndex) :=
  ⟨(C8_blank_fields_no_effect envNone emptyDB 1 none (by decide)).1,
   (C8_blank_fields_no_effect envNone emptyDB 1 (some "   ")
     (by decide)).2⟩

end MoviWeb
